import Mathlib

/-
  Verification development for the vm-migrator backend.

  The definitions below are a shallow embedding of the migration job
  execution engine (src/backend/app/tasks.py, execute_migration_job) and
  of the progress stream endpoint (src/backend/app/main.py, stream_job),
  over the data model of src/backend/app/models.py.

  Modelling conventions:
  - The database session is an explicit `Store` value; every
    `db.commit()` after a field mutation becomes a functional update.
  - Machine integers are `Nat` (the `progress` column is a SQL Integer
    holding percentages, never negative in the engine).
  - Python exceptions are an explicit `Exc` record (runtime type name
    and message); fallible connector calls return `Except Exc`.
  - `contextlib.suppress(E)` is modelled by matching on the error kind.
  - Calls with effects outside the job store (celery update_state,
    process loggers, record_system_event writing the system_logs table,
    time.sleep) have no bearing on any claim and are not modelled.
  - Every store write the engine performs is also recorded in an
    explicit trace of `Write` events so that per-run ordering
    properties can be stated.
-/

namespace VMMigrator

/-- models.py ProviderType: the two provider kinds. -/
inductive ProviderType
  | proxmox
  | vcenter
deriving DecidableEq, Repr

/-- models.py Provider: the columns the engine reads. -/
structure Provider where
  id : Nat
  name : String
  type : ProviderType
  api_url : String
  username : Option String
  secret : Option String
  verify_ssl : Bool
deriving DecidableEq, Repr

/-- models.py VirtualMachine: the columns the engine reads. -/
structure VirtualMachine where
  id : Nat
  name : String
  source_identifier : String
deriving DecidableEq, Repr

/-- models.py Job. -/
structure Job where
  id : Nat
  vm_name : String
  status : String
  progress : Nat
  source_provider_id : Option Nat
  destination_provider_id : Option Nat
  source_vm_id : Option Nat
  target_node : Option String
deriving DecidableEq, Repr

/-- models.py JobLog (id is the autoincrement primary key). -/
structure JobLog where
  id : Nat
  job_id : Nat
  message : String
deriving DecidableEq, Repr

/-- integrations/proxmox.py ProxmoxNodeInfo: the engine only ever reads
the node name; the numeric load fields are never consulted. -/
structure ProxmoxNodeInfo where
  name : String
  status : Option String
deriving DecidableEq, Repr

/-- integrations/vcenter.py VCenterInventory: the engine binds the
snapshot but never reads it, so only its shape matters here. -/
structure VCenterInventory where
  datacenters : List String
  hosts : List String
  virtual_machines : List String
deriving DecidableEq, Repr

/-- A Python exception as the engine observes it: the runtime type name
(what `type(exc).__name__` prints) and the message. -/
structure Exc where
  kind : String
  detail : String
deriving DecidableEq, Repr

/-- The relational store as the worker sees it: rows looked up by
primary key, plus the append-only job_logs table. -/
structure Store where
  jobs : Nat → Option Job
  providers : Nat → Option Provider
  vms : Nat → Option VirtualMachine
  logs : List JobLog

/-- db.get(Job, job_id). -/
def getJob (st : Store) (i : Nat) : Option Job :=
  st.jobs i

/-- Committing a mutated Job row: a keyed overwrite. -/
def putJob (st : Store) (j : Job) : Store :=
  { st with jobs := fun k => if k = j.id then some j else st.jobs k }

/-- tasks.py _log: insert a JobLog row and commit; the primary key
autoincrements. -/
def appendLog (st : Store) (job_id : Nat) (msg : String) : Store :=
  { st with
    logs := st.logs ++ [{ id := st.logs.length + 1, job_id := job_id, message := msg }] }

/-- tasks.py _load_provider. -/
def load_provider (st : Store) : Option Nat → Option Provider
  | none => none
  | some i => st.providers i

/-- tasks.py _load_vm. -/
def load_vm (st : Store) : Option Nat → Option VirtualMachine
  | none => none
  | some i => st.vms i

/-- The two Provider Gateway calls the engine makes, with the argument
lists it passes (api_url, username, secret, verify_ssl). -/
structure Env where
  fetch_inventory : String → String → String → Bool → Except Exc VCenterInventory
  fetch_nodes : String → String → String → Bool → Except Exc (List ProxmoxNodeInfo)

/-- Python truthiness of an optional string column: None and the empty
string are falsy. -/
def truthy : Option String → Bool
  | none => false
  | some s => !s.isEmpty

/-- Python `a or b` on optional strings. -/
def pyOr (a b : Option String) : Option String :=
  if truthy a then a else b

/-- One store write performed by the engine, for per-run trace
properties. -/
inductive Write
  | wstatus (s : String)
  | wprogress (p : Nat)
  | wtarget (t : String)
  | wlog (m : String)
deriving DecidableEq, Repr

/-- What execute_migration_job hands back to the dispatcher: the success
dict, the job-not-found dict, or a re-raised exception. -/
inductive RunResult
  | ok (job_id : Nat) (vm_name : String) (target_node : String)
  | notFound (job_id : Nat)
  | raised (e : Exc)
deriving DecidableEq, Repr

/-- Outcome of one worker invocation: final store, ordered write trace,
and the caller-visible result. -/
structure RunOut where
  store : Store
  trace : List Write
  result : RunResult

/-- The body of the progress while-loop (tasks.py lines 184 to 190),
with explicit fuel; each iteration adds 5, clamps to the target, and
commits. -/
def pumpFuel : Nat → Store → Job → Nat → Store × Job × List Write
  | 0, st, job, _ => (st, job, [])
  | Nat.succ fuel, st, job, target =>
    if job.progress < target then
      let job2 := { job with progress := min (job.progress + 5) target }
      let st2 := putJob st job2
      let rest := pumpFuel fuel st2 job2 target
      (rest.1, rest.2.1, Write.wprogress job2.progress :: rest.2.2)
    else
      (st, job, [])

/-- The progress while-loop: each iteration raises progress by at least
one (steps of 5 clamped to the target), so `target - progress` units of
fuel always suffice. -/
def pump (st : Store) (job : Job) (target : Nat) : Store × Job × List Write :=
  pumpFuel (target - job.progress) st job target

/-- tasks.py lines 175 to 181: the phase pipeline labels and targets. -/
def phases : List (String × Nat) :=
  [("Export VM from vCenter as OVA", 50),
   ("Convert disks to qcow2 using qemu-img", 65),
   ("Upload converted disks to Proxmox storage", 80),
   ("Provision Proxmox VM and attach disks", 90),
   ("Initiate Proxmox live migration", 100)]

/-- tasks.py lines 182 to 190: for each phase, log the label then pump
progress to the phase target. -/
def runPhases : List (String × Nat) → Store → Nat → Job → Store × Job × List Write
  | [], st, _, job => (st, job, [])
  | (step, target) :: rest, st, job_id, job =>
    let st1 := appendLog st job_id step
    let r := pump st1 job target
    let r2 := runPhases rest r.1 job_id r.2.1
    (r2.1, r2.2.1, (Write.wlog step :: r.2.2) ++ r2.2.2)

/-- The workflow-start log entry (tasks.py line 69). -/
def startMsg : String := "Starting migration workflow."

/-- tasks.py line 123. -/
def vSrcMsg : String := "Validating connectivity with vCenter source."

/-- tasks.py line 137. -/
def vDestMsg : String := "Validating connectivity with Proxmox destination."

/-- tasks.py line 90. -/
def missingCtxErr : Exc :=
  { kind := "ValueError", detail := "Job is missing provider or VM information." }

/-- tasks.py line 105. -/
def srcRoleErr : Exc :=
  { kind := "ValueError", detail := "Source provider must be a vCenter instance." }

/-- tasks.py line 120. -/
def destRoleErr : Exc :=
  { kind := "ValueError", detail := "Destination provider must be a Proxmox VE instance." }

/-- tasks.py line 135. -/
def vcConnErr : Exc :=
  { kind := "VCenterError", detail := "Unable to connect to vCenter with stored credentials." }

/-- tasks.py lines 149 to 151. -/
def pxConnErr : Exc :=
  { kind := "ProxmoxError", detail := "Unable to connect to Proxmox with stored credentials." }

/-- The planning log entry (tasks.py lines 165 to 170). -/
def planMsg (vm : VirtualMachine) (target_node : String) : String :=
  "Prepared migration plan for VM \x27" ++ vm.name ++ "\x27 (source id "
    ++ vm.source_identifier ++ ") to Proxmox node \x27" ++ target_node ++ "\x27."

/-- The completion log entry (tasks.py lines 192 to 196). -/
def doneMsg : String :=
  "Migration workflow completed (manual data transfer steps may still be required)."

/-- The planning failure (tasks.py lines 157 to 160). -/
def noNodesErr : Exc :=
  { kind := "ValueError",
    detail := "Destination node not specified and Proxmox cluster returned no nodes." }

/-- tasks.py lines 165 to 210, after the target is resolved (tw records
the optional target_node write): plan log, progress 30, the phase
pipeline, the completion log and the completed status, and the success
dict built from job.id, job.vm_name and the resolved target. -/
def planFinish (st1 : Store) (job1 : Job) (job_id : Nat) (vm : VirtualMachine)
    (target_node : String) (tw : List Write) :
    Store × List Write × Except Exc (Nat × String × String) :=
  let st2 := appendLog st1 job_id (planMsg vm target_node)
  let job2 := { job1 with progress := 30 }
  let st3 := putJob st2 job2
  let r := runPhases phases st3 job_id job2
  let st4 := appendLog r.1 job_id doneMsg
  let job3 := { r.2.1 with status := "completed" }
  let st5 := putJob st4 job3
  (st5,
   tw ++ [Write.wlog (planMsg vm target_node), Write.wprogress 30] ++ r.2.2
     ++ [Write.wlog doneMsg, Write.wstatus "completed"],
   Except.ok (job3.id, job3.vm_name, target_node))

/-- tasks.py lines 161 to 163: persist the resolved target onto the Job
when it was not already set, then continue. -/
def planProceed (st : Store) (job : Job) (job_id : Nat) (vm : VirtualMachine)
    (target_node : String) :
    Store × List Write × Except Exc (Nat × String × String) :=
  if truthy job.target_node = false then
    planFinish (putJob st { job with target_node := some target_node })
      { job with target_node := some target_node } job_id vm target_node
      [Write.wtarget target_node]
  else
    planFinish st job job_id vm target_node []

/-- tasks.py lines 153 to 210: resolve the execution target (the job's
pre-specified target if truthy, else the first Proxmox candidate), fail
when neither exists, then run the rest of the workflow. -/
def stagePlan (st : Store) (job : Job) (job_id : Nat) (vm : VirtualMachine)
    (proxmox_nodes : List ProxmoxNodeInfo) :
    Store × List Write × Except Exc (Nat × String × String) :=
  let fallback : Option String :=
    match proxmox_nodes with
    | [] => none
    | n :: _ => some n.name
  let tn := pyOr job.target_node fallback
  if truthy tn = false then
    (st, [], Except.error noNodesErr)
  else
    planProceed st job job_id vm (tn.getD "")

/-- tasks.py lines 137 to 151: destination connectivity with
suppress(ProxmoxError) and the progress-20 sentinel check, then
planning. -/
def stageDest (env : Env) (st : Store) (job : Job) (job_id : Nat)
    (dest_provider : Provider) (vm : VirtualMachine) :
    Store × List Write × Except Exc (Nat × String × String) :=
  let st1 := appendLog st job_id vDestMsg
  let tr1 : List Write := [Write.wlog vDestMsg]
  match env.fetch_nodes dest_provider.api_url (dest_provider.username.getD "")
      (dest_provider.secret.getD "") dest_provider.verify_ssl with
  | Except.ok nodes =>
    let job1 := { job with progress := 20 }
    let st2 := putJob st1 job1
    if job1.progress < 20 then
      (st2, tr1 ++ [Write.wprogress 20], Except.error pxConnErr)
    else
      let r := stagePlan st2 job1 job_id vm nodes
      (r.1, tr1 ++ [Write.wprogress 20] ++ r.2.1, r.2.2)
  | Except.error e =>
    if e.kind = "ProxmoxError" then
      if job.progress < 20 then
        (st1, tr1, Except.error pxConnErr)
      else
        let r := stagePlan st1 job job_id vm []
        (r.1, tr1 ++ r.2.1, r.2.2)
    else
      (st1, tr1, Except.error e)

/-- tasks.py lines 122 to 135: source connectivity with
suppress(VCenterError) and the progress-10 sentinel check, then the
destination stage. -/
def stageSrc (env : Env) (st : Store) (job : Job) (job_id : Nat)
    (source_provider : Provider) (dest_provider : Provider) (vm : VirtualMachine) :
    Store × List Write × Except Exc (Nat × String × String) :=
  let st1 := appendLog st job_id vSrcMsg
  let tr1 : List Write := [Write.wlog vSrcMsg]
  match env.fetch_inventory source_provider.api_url (source_provider.username.getD "")
      (source_provider.secret.getD "") source_provider.verify_ssl with
  | Except.ok _inventory =>
    let job1 := { job with progress := 10 }
    let st2 := putJob st1 job1
    if job1.progress < 10 then
      (st2, tr1 ++ [Write.wprogress 10], Except.error vcConnErr)
    else
      let r := stageDest env st2 job1 job_id dest_provider vm
      (r.1, tr1 ++ [Write.wprogress 10] ++ r.2.1, r.2.2)
  | Except.error e =>
    if e.kind = "VCenterError" then
      if job.progress < 10 then
        (st1, tr1, Except.error vcConnErr)
      else
        let r := stageDest env st1 job job_id dest_provider vm
        (r.1, tr1 ++ r.2.1, r.2.2)
    else
      (st1, tr1, Except.error e)

/-- tasks.py lines 53 to 210: everything after the job row is found.
Sets running/progress 0, loads context, validates provider roles, then
runs the connectivity, planning and phase stages; raised exceptions are
returned for the outer guard. -/
def runLoaded (env : Env) (st0 : Store) (job_id : Nat) (job0 : Job) :
    Store × List Write × Except Exc (Nat × String × String) :=
  let job1 := { job0 with status := "running", progress := 0 }
  let st1 := putJob st0 job1
  let st2 := appendLog st1 job_id startMsg
  let tr0 : List Write :=
    [Write.wstatus "running", Write.wprogress 0, Write.wlog startMsg]
  match load_provider st2 job1.source_provider_id,
      load_provider st2 job1.destination_provider_id,
      load_vm st2 job1.source_vm_id with
  | some source_provider, some dest_provider, some vm =>
    if source_provider.type ≠ ProviderType.vcenter then
      (putJob st2 { job1 with status := "failed" }, tr0 ++ [Write.wstatus "failed"],
       Except.error srcRoleErr)
    else if dest_provider.type ≠ ProviderType.proxmox then
      (putJob st2 { job1 with status := "failed" }, tr0 ++ [Write.wstatus "failed"],
       Except.error destRoleErr)
    else
      let r := stageSrc env st2 job1 job_id source_provider dest_provider vm
      (r.1, tr0 ++ r.2.1, r.2.2)
  | _, _, _ =>
    (putJob st2 { job1 with status := "failed" }, tr0 ++ [Write.wstatus "failed"],
     Except.error missingCtxErr)

/-- tasks.py lines 211 to 222: the except-block. If the job row still
exists it is forced to failed and a "Failed: kind: detail" log entry is
appended; the exception is then re-raised. -/
def outerGuard (st : Store) (job_id : Nat) (tr : List Write) (e : Exc) : RunOut :=
  match getJob st job_id with
  | some j =>
    let st2 := putJob st { j with status := "failed" }
    let msg := "Failed: " ++ e.kind ++ ": " ++ e.detail
    { store := appendLog st2 job_id msg,
      trace := tr ++ [Write.wstatus "failed", Write.wlog msg],
      result := RunResult.raised e }
  | none => { store := st, trace := tr, result := RunResult.raised e }

/-- tasks.py execute_migration_job (lines 42 to 224): load the job row,
run the body, and apply the outer failure guard to any exception. -/
def execute_migration_job (env : Env) (st : Store) (job_id : Nat) : RunOut :=
  match getJob st job_id with
  | none => { store := st, trace := [], result := RunResult.notFound job_id }
  | some job =>
    let r := runLoaded env st job_id job
    match r.2.2 with
    | Except.ok v =>
      { store := r.1, trace := r.2.1, result := RunResult.ok v.1 v.2.1 v.2.2 }
    | Except.error e => outerGuard r.1 job_id r.2.1 e

/-- The job's log rows, in table order. -/
def jobLogs (st : Store) (job_id : Nat) : List JobLog :=
  st.logs.filter (fun l => l.job_id == job_id)

/-- Values written to the progress column, in write order. -/
def progressWrites : List Write → List Nat
  | [] => []
  | Write.wprogress p :: ws => p :: progressWrites ws
  | _ :: ws => progressWrites ws

/-- Values written to the status column, in write order. -/
def statusWrites : List Write → List String
  | [] => []
  | Write.wstatus s :: ws => s :: statusWrites ws
  | _ :: ws => statusWrites ws

/-- After a terminal status has been written, the remaining writes may
re-assert the same status but may not write a different status or any
progress value. -/
def noChangeAfter (s : String) : List Write → Bool
  | [] => true
  | Write.wprogress _ :: _ => false
  | Write.wstatus s2 :: ws => s2 == s && noChangeAfter s ws
  | _ :: ws => noChangeAfter s ws

/-- Terminal stickiness of one run's write trace: from the first write
of a terminal status onward, neither the status nor the progress of the
job changes. -/
def stickyTrace : List Write → Bool
  | [] => true
  | Write.wstatus s :: ws =>
    if s == "completed" || s == "failed" then noChangeAfter s ws else stickyTrace ws
  | _ :: ws => stickyTrace ws

/-- The write trace of the whole phase pipeline when it starts from
progress 30, as the engine always does: each phase logs its label and
then climbs in increments of 5 clamped to the phase target. -/
def pipelineTrace : List Write :=
  [Write.wlog "Export VM from vCenter as OVA",
   Write.wprogress 35, Write.wprogress 40, Write.wprogress 45, Write.wprogress 50,
   Write.wlog "Convert disks to qcow2 using qemu-img",
   Write.wprogress 55, Write.wprogress 60, Write.wprogress 65,
   Write.wlog "Upload converted disks to Proxmox storage",
   Write.wprogress 70, Write.wprogress 75, Write.wprogress 80,
   Write.wlog "Provision Proxmox VM and attach disks",
   Write.wprogress 85, Write.wprogress 90,
   Write.wlog "Initiate Proxmox live migration",
   Write.wprogress 95, Write.wprogress 100]

/-- The job/trace component of the progress loop, decoupled from the
store it commits to (the loop writes the store but never reads it
back). -/
def pumpPure : Nat → Job → Nat → Job × List Write
  | 0, job, _ => (job, [])
  | Nat.succ fuel, job, target =>
    if job.progress < target then
      let job2 := { job with progress := min (job.progress + 5) target }
      let rest := pumpPure fuel job2 target
      (rest.1, Write.wprogress job2.progress :: rest.2)
    else
      (job, [])

/-- The sequence of progress values one phase loop writes. -/
def climb : Nat → Nat → Nat → List Nat
  | 0, _, _ => []
  | Nat.succ f, p, t => if p < t then min (p + 5) t :: climb f (min (p + 5) t) t else []

/-- The progress value a phase loop ends at. -/
def climbFinal : Nat → Nat → Nat → Nat
  | 0, p, _ => p
  | Nat.succ f, p, t => if p < t then climbFinal f (min (p + 5) t) t else p

/-- The job/trace component of the phase pipeline, decoupled from the
store. -/
def runPhasesPure : List (String × Nat) → Job → Job × List Write
  | [], job => (job, [])
  | (step, target) :: rest, job =>
    let r := pumpPure (target - job.progress) job target
    let r2 := runPhasesPure rest r.1
    (r2.1, (Write.wlog step :: r.2) ++ r2.2)

/-- The store holds a job row under key i whose id column is i: what a
relational primary-key lookup guarantees. -/
def keyedAt (st : Store) (i : Nat) : Prop :=
  ∃ j, getJob st i = some j ∧ j.id = i

/-- One server-sent event of the progress stream (main.py stream_job). -/
inductive Event
  | data (message : String)
  | progress (value : Nat)
  | done (status : String)
deriving DecidableEq, Repr

/-- main.py lines 600 to 623, one pass of the polling loop in
stream_job's event generator: re-query the job row outer-joined with
its log rows ordered by log id, yield a data event for every log row
whose id is above last_id (advancing last_id), then a progress event
and, when the status is terminal, a done event after which the loop
breaks. -/
def pollOnce (st : Store) (job_id : Nat) (last_id : Nat) :
    List Event × Nat × Bool :=
  match getJob st job_id with
  | none => ([], last_id, false)
  | some job =>
    let fresh := (jobLogs st job_id).filter (fun l => decide (last_id < l.id))
    let evs := fresh.map (fun l => Event.data l.message)
    let last2 := fresh.foldl (fun _ l => l.id) last_id
    if job.status == "completed" || job.status == "failed" then
      (evs ++ [Event.progress job.progress, Event.done job.status], last2, true)
    else
      (evs ++ [Event.progress job.progress], last2, false)

/-- The subscription loop, polling a store that does not change between
polls (the job is already terminal in every claim about this model);
fuel bounds the number of polls so the model is total. -/
def stream : Nat → Store → Nat → Nat → List Event
  | 0, _, _, _ => []
  | Nat.succ fuel, st, job_id, last_id =>
    let r := pollOnce st job_id last_id
    if r.2.2 then r.1 else r.1 ++ stream fuel st job_id r.2.1

/-- A reachable vCenter source provider row. -/
def vcProv : Provider :=
  { id := 1, name := "vc", type := ProviderType.vcenter, api_url := "https://vc.example",
    username := some "admin", secret := some "pw", verify_ssl := true }

/-- A Proxmox destination provider row. -/
def pxProv : Provider :=
  { id := 2, name := "px", type := ProviderType.proxmox, api_url := "https://px.example:8006",
    username := some "root@pam", secret := some "secret", verify_ssl := false }

/-- The VM of the reference scenario. -/
def vmDb01 : VirtualMachine :=
  { id := 1, name := "db-01", source_identifier := "vm-123" }

/-- Job 1 of the reference scenario: VM db-01, both providers set, no
pre-specified target. -/
def scenarioJob : Job :=
  { id := 1, vm_name := "db-01", status := "queued", progress := 0,
    source_provider_id := some 1, destination_provider_id := some 2,
    source_vm_id := some 1, target_node := none }

/-- A store holding job 1 (as given), the two providers and the VM. -/
def mkStore (j : Job) : Store :=
  { jobs := fun i => if i = 1 then some j else none,
    providers := fun i => if i = 1 then some vcProv else if i = 2 then some pxProv else none,
    vms := fun i => if i = 1 then some vmDb01 else none,
    logs := [] }

def scenarioStore : Store := mkStore scenarioJob

/-- Both connectors reachable; the destination returns one candidate
node, node-a. -/
def happyEnv : Env :=
  { fetch_inventory := fun _ _ _ _ =>
      Except.ok { datacenters := [], hosts := [], virtual_machines := [] },
    fetch_nodes := fun _ _ _ _ =>
      Except.ok [{ name := "node-a", status := some "online" }] }

/-- Source connector raises VCenterError with the given detail. -/
def srcFailEnv (d : String) : Env :=
  { fetch_inventory := fun _ _ _ _ => Except.error { kind := "VCenterError", detail := d },
    fetch_nodes := fun _ _ _ _ => Except.ok [] }

/-- Both connectors reachable but the destination returns no candidate
nodes. -/
def noNodesEnv : Env :=
  { fetch_inventory := fun _ _ _ _ =>
      Except.ok { datacenters := [], hosts := [], virtual_machines := [] },
    fetch_nodes := fun _ _ _ _ => Except.ok [] }

/-- Job 1 already completed. -/
def completedJob : Job :=
  { scenarioJob with status := "completed", progress := 100, target_node := some "node-a" }

def completedStore : Store := mkStore completedJob

/-- Job 1 mid-execution. -/
def runningJob : Job := { scenarioJob with status := "running", progress := 37 }

def runningStore : Store := mkStore runningJob

/-- Job 1 with an explicit pre-specified target node. -/
def explicitTargetJob : Job := { scenarioJob with target_node := some "node-x" }

def explicitTargetStore : Store := mkStore explicitTargetJob

/-- A completed job together with its historical log trail, for the
progress-stream scenario. -/
def streamStore : Store :=
  { mkStore completedJob with
    logs := [{ id := 1, job_id := 1, message := "Starting migration workflow." },
             { id := 2, job_id := 1, message := "Migration workflow completed (manual data transfer steps may still be required)." }] }

section StoreLemmas

@[simp]
theorem providers_putJob (st : Store) (j : Job) : (putJob st j).providers = st.providers := rfl

@[simp]
theorem vms_putJob (st : Store) (j : Job) : (putJob st j).vms = st.vms := rfl

@[simp]
theorem logs_putJob (st : Store) (j : Job) : (putJob st j).logs = st.logs := rfl

@[simp]
theorem providers_appendLog (st : Store) (i : Nat) (m : String) :
    (appendLog st i m).providers = st.providers := rfl

@[simp]
theorem vms_appendLog (st : Store) (i : Nat) (m : String) :
    (appendLog st i m).vms = st.vms := rfl

@[simp]
theorem logs_appendLog (st : Store) (i : Nat) (m : String) :
    (appendLog st i m).logs
      = st.logs ++ [{ id := st.logs.length + 1, job_id := i, message := m }] := rfl

@[simp]
theorem getJob_appendLog (st : Store) (i : Nat) (m : String) (k : Nat) :
    getJob (appendLog st i m) k = getJob st k := rfl

theorem getJob_putJob (st : Store) (j : Job) (k : Nat) :
    getJob (putJob st j) k = if k = j.id then some j else getJob st k := rfl

@[simp]
theorem getJob_putJob_self (st : Store) (j : Job) (k : Nat) (h : k = j.id) :
    getJob (putJob st j) k = some j := by
  simp [getJob_putJob, h]

@[simp]
theorem load_provider_putJob (st : Store) (j : Job) (x : Option Nat) :
    load_provider (putJob st j) x = load_provider st x := by cases x <;> rfl

@[simp]
theorem load_provider_appendLog (st : Store) (i : Nat) (m : String) (x : Option Nat) :
    load_provider (appendLog st i m) x = load_provider st x := by cases x <;> rfl

@[simp]
theorem load_vm_putJob (st : Store) (j : Job) (x : Option Nat) :
    load_vm (putJob st j) x = load_vm st x := by cases x <;> rfl

@[simp]
theorem load_vm_appendLog (st : Store) (i : Nat) (m : String) (x : Option Nat) :
    load_vm (appendLog st i m) x = load_vm st x := by cases x <;> rfl

theorem progressWrites_append (l1 l2 : List Write) :
    progressWrites (l1 ++ l2) = progressWrites l1 ++ progressWrites l2 := by
  induction l1 with
  | nil => rfl
  | cons w ws ih => cases w <;> simp [progressWrites, ih]

theorem statusWrites_append (l1 l2 : List Write) :
    statusWrites (l1 ++ l2) = statusWrites l1 ++ statusWrites l2 := by
  induction l1 with
  | nil => rfl
  | cons w ws ih => cases w <;> simp [statusWrites, ih]

end StoreLemmas

section PumpLemmas

theorem pumpFuel_pure (fuel : Nat) : ∀ (st : Store) (job : Job) (target : Nat),
    (pumpFuel fuel st job target).2 = pumpPure fuel job target := by
  induction fuel with
  | zero => intro st job target; rfl
  | succ n ih =>
    intro st job target
    simp only [pumpFuel, pumpPure]
    split
    · simp [ih]
    · rfl

theorem pumpPure_job (fuel : Nat) : ∀ (job : Job) (t : Nat),
    (pumpPure fuel job t).1 = { job with progress := climbFinal fuel job.progress t } := by
  induction fuel with
  | zero => intro job t; rfl
  | succ n ih =>
    intro job t
    simp only [pumpPure, climbFinal]
    split
    · simp [ih]
    · rfl

theorem pumpPure_trace (fuel : Nat) : ∀ (job : Job) (t : Nat),
    (pumpPure fuel job t).2 = (climb fuel job.progress t).map Write.wprogress := by
  induction fuel with
  | zero => intro job t; rfl
  | succ n ih =>
    intro job t
    simp only [pumpPure, climb]
    split
    · simp [ih]
    · rfl

theorem runPhases_pure (ps : List (String × Nat)) : ∀ (st : Store) (i : Nat) (job : Job),
    (runPhases ps st i job).2 = runPhasesPure ps job := by
  induction ps with
  | nil => intro st i job; rfl
  | cons ph rest ih =>
    obtain ⟨step, target⟩ := ph
    intro st i job
    simp only [runPhases, runPhasesPure, pump]
    rw [pumpFuel_pure, ih]

theorem runPhasesPure_spec (job : Job) (h : job.progress = 30) :
    runPhasesPure phases job = ({ job with progress := 100 }, pipelineTrace) := by
  simp [phases, runPhasesPure, pumpPure_job, pumpPure_trace, h, pipelineTrace,
    show climbFinal 20 30 50 = 50 from by decide,
    show climbFinal 15 50 65 = 65 from by decide,
    show climbFinal 15 65 80 = 80 from by decide,
    show climbFinal 10 80 90 = 90 from by decide,
    show climbFinal 10 90 100 = 100 from by decide,
    show climb 20 30 50 = [35, 40, 45, 50] from by decide,
    show climb 15 50 65 = [55, 60, 65] from by decide,
    show climb 15 65 80 = [70, 75, 80] from by decide,
    show climb 10 80 90 = [85, 90] from by decide,
    show climb 10 90 100 = [95, 100] from by decide]

/-- When the pipeline starts at progress 30 (as it always does in the
engine), it ends at progress 100 with all other job fields unchanged,
and its write trace is exactly `pipelineTrace`. -/
theorem runPhases_spec (st : Store) (i : Nat) (job : Job) (h : job.progress = 30) :
    (runPhases phases st i job).2.1 = { job with progress := 100 } ∧
    (runPhases phases st i job).2.2 = pipelineTrace := by
  have h2 := runPhases_pure phases st i job
  rw [runPhasesPure_spec job h] at h2
  constructor
  · rw [show (runPhases phases st i job).2.1 = ((runPhases phases st i job).2).1 from rfl, h2]
  · rw [show (runPhases phases st i job).2.2 = ((runPhases phases st i job).2).2 from rfl, h2]

end PumpLemmas

section KeyedAt

theorem keyedAt_putJob {st : Store} {i : Nat} (h : keyedAt st i) (j : Job) :
    keyedAt (putJob st j) i := by
  obtain ⟨j0, hj0, hid⟩ := h
  by_cases hc : i = j.id
  · exact ⟨j, by simp [getJob_putJob, hc], hc.symm⟩
  · exact ⟨j0, by simp [getJob_putJob, hc, hj0], hid⟩

theorem keyedAt_appendLog {st : Store} {i : Nat} (h : keyedAt st i) (k : Nat) (m : String) :
    keyedAt (appendLog st k m) i := by
  obtain ⟨j0, hj0, hid⟩ := h
  exact ⟨j0, by simp [hj0], hid⟩

theorem keyedAt_pumpFuel (fuel : Nat) : ∀ (st : Store) (job : Job) (t i : Nat),
    keyedAt st i → keyedAt (pumpFuel fuel st job t).1 i := by
  induction fuel with
  | zero => intro st job t i h; exact h
  | succ n ih =>
    intro st job t i h
    simp only [pumpFuel]
    split
    · exact ih _ _ _ _ (keyedAt_putJob h _)
    · exact h

theorem keyedAt_runPhases (ps : List (String × Nat)) :
    ∀ (st : Store) (k : Nat) (job : Job) (i : Nat),
    keyedAt st i → keyedAt (runPhases ps st k job).1 i := by
  induction ps with
  | nil => intro st k job i h; exact h
  | cons ph rest ih =>
    obtain ⟨step, target⟩ := ph
    intro st k job i h
    simp only [runPhases, pump]
    exact ih _ _ _ _ (keyedAt_pumpFuel _ _ _ _ _ (keyedAt_appendLog h _ _))

end KeyedAt

section SymbolicProofs

attribute [local irreducible] pumpFuel pump pumpPure runPhases runPhasesPure climb climbFinal

section KeyedAtStages

theorem keyedAt_planFinish {st1 : Store} {i : Nat} (h : keyedAt st1 i) (job1 : Job)
    (job_id : Nat) (vm : VirtualMachine) (tn : String) (tw : List Write) :
    keyedAt (planFinish st1 job1 job_id vm tn tw).1 i := by
  unfold planFinish
  dsimp only []
  exact keyedAt_putJob
    (keyedAt_appendLog
      (keyedAt_runPhases _ _ _ _ _ (keyedAt_putJob (keyedAt_appendLog h _ _) _)) _ _) _

theorem keyedAt_planProceed {st : Store} {i : Nat} (h : keyedAt st i) (job : Job)
    (job_id : Nat) (vm : VirtualMachine) (tn : String) :
    keyedAt (planProceed st job job_id vm tn).1 i := by
  unfold planProceed
  split
  · exact keyedAt_planFinish (keyedAt_putJob h _) _ _ _ _ _
  · exact keyedAt_planFinish h _ _ _ _ _

theorem keyedAt_stagePlan {st : Store} {i : Nat} (h : keyedAt st i) (job : Job)
    (job_id : Nat) (vm : VirtualMachine) (nodes : List ProxmoxNodeInfo) :
    keyedAt (stagePlan st job job_id vm nodes).1 i := by
  unfold stagePlan
  dsimp only []
  split
  · exact h
  · exact keyedAt_planProceed h _ _ _ _

theorem keyedAt_stageDest {st : Store} {i : Nat} (h : keyedAt st i) (env : Env) (job : Job)
    (job_id : Nat) (dp : Provider) (vm : VirtualMachine) :
    keyedAt (stageDest env st job job_id dp vm).1 i := by
  unfold stageDest
  dsimp only []
  split
  · split
    · exact keyedAt_putJob (keyedAt_appendLog h _ _) _
    · exact keyedAt_stagePlan (keyedAt_putJob (keyedAt_appendLog h _ _) _) _ _ _ _
  · split
    · split
      · exact keyedAt_appendLog h _ _
      · exact keyedAt_stagePlan (keyedAt_appendLog h _ _) _ _ _ _
    · exact keyedAt_appendLog h _ _

theorem keyedAt_stageSrc {st : Store} {i : Nat} (h : keyedAt st i) (env : Env) (job : Job)
    (job_id : Nat) (sp dp : Provider) (vm : VirtualMachine) :
    keyedAt (stageSrc env st job job_id sp dp vm).1 i := by
  unfold stageSrc
  dsimp only []
  split
  · split
    · exact keyedAt_putJob (keyedAt_appendLog h _ _) _
    · exact keyedAt_stageDest (keyedAt_putJob (keyedAt_appendLog h _ _) _) _ _ _ _ _
  · split
    · split
      · exact keyedAt_appendLog h _ _
      · exact keyedAt_stageDest (keyedAt_appendLog h _ _) _ _ _ _ _
    · exact keyedAt_appendLog h _ _

theorem keyedAt_runLoaded {st : Store} {i : Nat} (h : keyedAt st i) (env : Env)
    (job_id : Nat) (job0 : Job) :
    keyedAt (runLoaded env st job_id job0).1 i := by
  unfold runLoaded
  dsimp only []
  split
  · split
    · exact keyedAt_putJob (keyedAt_appendLog (keyedAt_putJob h _) _ _) _
    · split
      · exact keyedAt_putJob (keyedAt_appendLog (keyedAt_putJob h _) _ _) _
      · exact keyedAt_stageSrc (keyedAt_appendLog (keyedAt_putJob h _) _ _) _ _ _ _ _ _
  · exact keyedAt_putJob (keyedAt_appendLog (keyedAt_putJob h _) _ _) _

end KeyedAtStages

section GuardLemmas

theorem outerGuard_result (st : Store) (i : Nat) (tr : List Write) (e : Exc) :
    (outerGuard st i tr e).result = RunResult.raised e := by
  unfold outerGuard
  split <;> rfl

theorem outerGuard_trace_cases (st : Store) (i : Nat) (tr : List Write) (e : Exc) :
    (outerGuard st i tr e).trace = tr
    ∨ (outerGuard st i tr e).trace
        = tr ++ [Write.wstatus "failed",
            Write.wlog ("Failed: " ++ e.kind ++ ": " ++ e.detail)] := by
  unfold outerGuard
  split
  · right; rfl
  · left; rfl

theorem outerGuard_spec (st : Store) (i : Nat) (tr : List Write) (e : Exc)
    (h : keyedAt st i) :
    (∃ j, getJob (outerGuard st i tr e).store i = some j ∧ j.status = "failed") ∧
    ((outerGuard st i tr e).store.logs.map JobLog.message).getLast?
      = some ("Failed: " ++ e.kind ++ ": " ++ e.detail) ∧
    (outerGuard st i tr e).trace
      = tr ++ [Write.wstatus "failed",
          Write.wlog ("Failed: " ++ e.kind ++ ": " ++ e.detail)] := by
  obtain ⟨j0, hj0, hid⟩ := h
  unfold outerGuard
  rw [hj0]
  dsimp only []
  refine ⟨⟨{ j0 with status := "failed" }, ?_, rfl⟩, ?_, rfl⟩
  · rw [getJob_appendLog, getJob_putJob]
    simp [hid]
  · simp

end GuardLemmas

section StickyLemmas

@[simp]
theorem stickyTrace_nil : stickyTrace [] = true := rfl

@[simp]
theorem stickyTrace_wprogress (p : Nat) (ws : List Write) :
    stickyTrace (Write.wprogress p :: ws) = stickyTrace ws := rfl

@[simp]
theorem stickyTrace_wlog (m : String) (ws : List Write) :
    stickyTrace (Write.wlog m :: ws) = stickyTrace ws := rfl

@[simp]
theorem stickyTrace_wtarget (t : String) (ws : List Write) :
    stickyTrace (Write.wtarget t :: ws) = stickyTrace ws := rfl

@[simp]
theorem stickyTrace_running (ws : List Write) :
    stickyTrace (Write.wstatus "running" :: ws) = stickyTrace ws := rfl

@[simp]
theorem stickyTrace_completed (ws : List Write) :
    stickyTrace (Write.wstatus "completed" :: ws) = noChangeAfter "completed" ws := rfl

@[simp]
theorem stickyTrace_failed (ws : List Write) :
    stickyTrace (Write.wstatus "failed" :: ws) = noChangeAfter "failed" ws := rfl

@[simp]
theorem noChangeAfter_nil (s : String) : noChangeAfter s [] = true := rfl

@[simp]
theorem noChangeAfter_wlog (s m : String) (ws : List Write) :
    noChangeAfter s (Write.wlog m :: ws) = noChangeAfter s ws := rfl

@[simp]
theorem noChangeAfter_wtarget (s t : String) (ws : List Write) :
    noChangeAfter s (Write.wtarget t :: ws) = noChangeAfter s ws := rfl

@[simp]
theorem noChangeAfter_failed_failed (ws : List Write) :
    noChangeAfter "failed" (Write.wstatus "failed" :: ws) = noChangeAfter "failed" ws := by
  simp [noChangeAfter]

theorem stickyTrace_pipeline_append (rest : List Write) :
    stickyTrace (pipelineTrace ++ rest) = stickyTrace rest := by
  simp [pipelineTrace]

theorem progressWrites_pipeline :
    progressWrites pipelineTrace
      = [35, 40, 45, 50, 55, 60, 65, 70, 75, 80, 85, 90, 95, 100] := rfl

end StickyLemmas

section TraceLemmas

theorem planFinish_trace (st1 : Store) (job1 : Job) (job_id : Nat) (vm : VirtualMachine)
    (tn : String) (tw : List Write) :
    (planFinish st1 job1 job_id vm tn tw).2.1
      = tw ++ [Write.wlog (planMsg vm tn), Write.wprogress 30] ++ pipelineTrace
        ++ [Write.wlog doneMsg, Write.wstatus "completed"] ∧
    (planFinish st1 job1 job_id vm tn tw).2.2
      = Except.ok (job1.id, job1.vm_name, tn) := by
  have hr : (runPhases phases (putJob (appendLog st1 job_id (planMsg vm tn))
        { job1 with progress := 30 }) job_id { job1 with progress := 30 }).2
      = ({ job1 with progress := 100 }, pipelineTrace) := by
    rw [runPhases_pure, runPhasesPure_spec _ (by simp)]
  unfold planFinish
  dsimp only []
  rw [hr]
  simp

theorem planProceed_trace (st : Store) (job : Job) (job_id : Nat) (vm : VirtualMachine)
    (tn : String) :
    ∃ tw, (tw = [] ∨ ∃ t, tw = [Write.wtarget t]) ∧
      (planProceed st job job_id vm tn).2.1
        = tw ++ [Write.wlog (planMsg vm tn), Write.wprogress 30] ++ pipelineTrace
          ++ [Write.wlog doneMsg, Write.wstatus "completed"] ∧
      ∃ v, (planProceed st job job_id vm tn).2.2 = Except.ok v := by
  unfold planProceed
  split
  · exact ⟨[Write.wtarget tn], Or.inr ⟨tn, rfl⟩, (planFinish_trace _ _ _ _ _ _).1,
      _, (planFinish_trace _ _ _ _ _ _).2⟩
  · exact ⟨[], Or.inl rfl, (planFinish_trace _ _ _ _ _ _).1,
      _, (planFinish_trace _ _ _ _ _ _).2⟩

theorem stagePlan_trace (st : Store) (job : Job) (job_id : Nat) (vm : VirtualMachine)
    (nodes : List ProxmoxNodeInfo) :
    ((stagePlan st job job_id vm nodes).2.1 = [] ∧
      (stagePlan st job job_id vm nodes).2.2 = Except.error noNodesErr)
    ∨ (∃ tw pm, (tw = [] ∨ ∃ t, tw = [Write.wtarget t]) ∧
        (stagePlan st job job_id vm nodes).2.1
          = tw ++ [Write.wlog pm, Write.wprogress 30] ++ pipelineTrace
            ++ [Write.wlog doneMsg, Write.wstatus "completed"] ∧
        ∃ v, (stagePlan st job job_id vm nodes).2.2 = Except.ok v) := by
  unfold stagePlan
  dsimp only []
  split
  · exact Or.inl ⟨rfl, rfl⟩
  · right
    obtain ⟨tw, htw, htr, v, hres⟩ := planProceed_trace st job job_id vm _
    exact ⟨tw, _, htw, htr, v, hres⟩

theorem stageDest_trace (env : Env) (st : Store) (job : Job) (job_id : Nat)
    (dp : Provider) (vm : VirtualMachine) (hpr : job.progress = 10) :
    (∃ e, (stageDest env st job job_id dp vm).2.1 = [Write.wlog vDestMsg] ∧
      (stageDest env st job job_id dp vm).2.2 = Except.error e)
    ∨ ((stageDest env st job job_id dp vm).2.1 = [Write.wlog vDestMsg, Write.wprogress 20] ∧
      (stageDest env st job job_id dp vm).2.2 = Except.error noNodesErr)
    ∨ (∃ tw pm, (tw = [] ∨ ∃ t, tw = [Write.wtarget t]) ∧
        (stageDest env st job job_id dp vm).2.1
          = [Write.wlog vDestMsg, Write.wprogress 20] ++ tw
            ++ [Write.wlog pm, Write.wprogress 30] ++ pipelineTrace
            ++ [Write.wlog doneMsg, Write.wstatus "completed"] ∧
        ∃ v, (stageDest env st job job_id dp vm).2.2 = Except.ok v) := by
  unfold stageDest
  dsimp only []
  split
  · -- fetch_nodes succeeded
    rw [if_neg (by decide)]
    rcases stagePlan_trace (putJob (appendLog st job_id vDestMsg) { job with progress := 20 })
        { job with progress := 20 } job_id vm _ with ⟨h1, h2⟩ | ⟨tw, pm, htw, htr, v, hres⟩
    · right; left
      constructor
      · dsimp only []; rw [h1]; simp
      · dsimp only []; rw [h2]
    · right; right
      refine ⟨tw, pm, htw, ?_, v, ?_⟩
      · dsimp only []; rw [htr]; simp
      · dsimp only []; rw [hres]
  · -- fetch_nodes raised e
    split
    · rw [if_pos (by rw [hpr]; decide)]
      exact Or.inl ⟨pxConnErr, rfl, rfl⟩
    · exact Or.inl ⟨_, rfl, rfl⟩

theorem stageSrc_trace (env : Env) (st : Store) (job : Job) (job_id : Nat)
    (sp dp : Provider) (vm : VirtualMachine) (hpr : job.progress = 0) :
    (∃ e, (stageSrc env st job job_id sp dp vm).2.1 = [Write.wlog vSrcMsg] ∧
      (stageSrc env st job job_id sp dp vm).2.2 = Except.error e)
    ∨ (∃ e, (stageSrc env st job job_id sp dp vm).2.1
        = [Write.wlog vSrcMsg, Write.wprogress 10, Write.wlog vDestMsg] ∧
      (stageSrc env st job job_id sp dp vm).2.2 = Except.error e)
    ∨ ((stageSrc env st job job_id sp dp vm).2.1
        = [Write.wlog vSrcMsg, Write.wprogress 10, Write.wlog vDestMsg, Write.wprogress 20] ∧
      (stageSrc env st job job_id sp dp vm).2.2 = Except.error noNodesErr)
    ∨ (∃ tw pm, (tw = [] ∨ ∃ t, tw = [Write.wtarget t]) ∧
        (stageSrc env st job job_id sp dp vm).2.1
          = [Write.wlog vSrcMsg, Write.wprogress 10, Write.wlog vDestMsg, Write.wprogress 20]
            ++ tw ++ [Write.wlog pm, Write.wprogress 30] ++ pipelineTrace
            ++ [Write.wlog doneMsg, Write.wstatus "completed"] ∧
        ∃ v, (stageSrc env st job job_id sp dp vm).2.2 = Except.ok v) := by
  unfold stageSrc
  dsimp only []
  split
  · -- fetch_inventory succeeded
    rw [if_neg (by decide)]
    rcases stageDest_trace env (putJob (appendLog st job_id vSrcMsg) { job with progress := 10 })
        { job with progress := 10 } job_id dp vm (by simp)
      with ⟨e, h1, h2⟩ | ⟨h1, h2⟩ | ⟨tw, pm, htw, htr, v, hres⟩
    · refine Or.inr (Or.inl ⟨e, ?_, ?_⟩)
      · dsimp only []; rw [h1]; simp
      · dsimp only []; rw [h2]
    · refine Or.inr (Or.inr (Or.inl ⟨?_, ?_⟩))
      · dsimp only []; rw [h1]; simp
      · dsimp only []; rw [h2]
    · refine Or.inr (Or.inr (Or.inr ⟨tw, pm, htw, ?_, v, ?_⟩))
      · dsimp only []; rw [htr]; simp
      · dsimp only []; rw [hres]
  · split
    · rw [if_pos (by rw [hpr]; decide)]
      exact Or.inl ⟨vcConnErr, rfl, rfl⟩
    · exact Or.inl ⟨_, rfl, rfl⟩

theorem runLoaded_trace (env : Env) (st : Store) (job_id : Nat) (job0 : Job) :
    (∃ e, (runLoaded env st job_id job0).2.1
        = [Write.wstatus "running", Write.wprogress 0, Write.wlog startMsg, Write.wstatus "failed"] ∧
      (runLoaded env st job_id job0).2.2 = Except.error e)
    ∨ (∃ e, (runLoaded env st job_id job0).2.1
        = [Write.wstatus "running", Write.wprogress 0, Write.wlog startMsg, Write.wlog vSrcMsg] ∧
      (runLoaded env st job_id job0).2.2 = Except.error e)
    ∨ (∃ e, (runLoaded env st job_id job0).2.1
        = [Write.wstatus "running", Write.wprogress 0, Write.wlog startMsg, Write.wlog vSrcMsg,
           Write.wprogress 10, Write.wlog vDestMsg] ∧
      (runLoaded env st job_id job0).2.2 = Except.error e)
    ∨ ((runLoaded env st job_id job0).2.1
        = [Write.wstatus "running", Write.wprogress 0, Write.wlog startMsg, Write.wlog vSrcMsg,
           Write.wprogress 10, Write.wlog vDestMsg, Write.wprogress 20] ∧
      (runLoaded env st job_id job0).2.2 = Except.error noNodesErr)
    ∨ (∃ tw pm, (tw = [] ∨ ∃ t, tw = [Write.wtarget t]) ∧
        (runLoaded env st job_id job0).2.1
          = [Write.wstatus "running", Write.wprogress 0, Write.wlog startMsg, Write.wlog vSrcMsg,
             Write.wprogress 10, Write.wlog vDestMsg, Write.wprogress 20]
            ++ tw ++ [Write.wlog pm, Write.wprogress 30] ++ pipelineTrace
            ++ [Write.wlog doneMsg, Write.wstatus "completed"] ∧
        ∃ v, (runLoaded env st job_id job0).2.2 = Except.ok v) := by
  unfold runLoaded
  dsimp only []
  split
  · split
    · exact Or.inl ⟨srcRoleErr, rfl, rfl⟩
    · split
      · exact Or.inl ⟨destRoleErr, rfl, rfl⟩
      · rcases stageSrc_trace env
            (appendLog (putJob st { job0 with status := "running", progress := 0 }) job_id startMsg)
            { job0 with status := "running", progress := 0 } job_id _ _ _ (by simp)
          with ⟨e, h1, h2⟩ | ⟨e, h1, h2⟩ | ⟨h1, h2⟩ | ⟨tw, pm, htw, htr, v, hres⟩
        · refine Or.inr (Or.inl ⟨e, ?_, ?_⟩)
          · dsimp only []; rw [h1]; simp
          · dsimp only []; rw [h2]
        · refine Or.inr (Or.inr (Or.inl ⟨e, ?_, ?_⟩))
          · dsimp only []; rw [h1]; simp
          · dsimp only []; rw [h2]
        · refine Or.inr (Or.inr (Or.inr (Or.inl ⟨?_, ?_⟩)))
          · dsimp only []; rw [h1]; simp
          · dsimp only []; rw [h2]
        · refine Or.inr (Or.inr (Or.inr (Or.inr ⟨tw, pm, htw, ?_, v, ?_⟩)))
          · dsimp only []; rw [htr]; simp
          · dsimp only []; rw [hres]
  · exact Or.inl ⟨missingCtxErr, rfl, rfl⟩

end TraceLemmas

section HelperLemmas

theorem execute_trace_cases (env : Env) (st : Store) (job_id : Nat) :
    ((execute_migration_job env st job_id).trace = [] ∧ getJob st job_id = none)
    ∨ (∃ gt, (gt = [] ∨ ∃ m, gt = [Write.wstatus "failed", Write.wlog m]) ∧
        ((execute_migration_job env st job_id).trace
            = [Write.wstatus "running", Write.wprogress 0, Write.wlog startMsg,
               Write.wstatus "failed"] ++ gt
         ∨ (execute_migration_job env st job_id).trace
            = [Write.wstatus "running", Write.wprogress 0, Write.wlog startMsg,
               Write.wlog vSrcMsg] ++ gt
         ∨ (execute_migration_job env st job_id).trace
            = [Write.wstatus "running", Write.wprogress 0, Write.wlog startMsg,
               Write.wlog vSrcMsg, Write.wprogress 10, Write.wlog vDestMsg] ++ gt
         ∨ (execute_migration_job env st job_id).trace
            = [Write.wstatus "running", Write.wprogress 0, Write.wlog startMsg,
               Write.wlog vSrcMsg, Write.wprogress 10, Write.wlog vDestMsg,
               Write.wprogress 20] ++ gt))
    ∨ (∃ tw pm, (tw = [] ∨ ∃ t, tw = [Write.wtarget t]) ∧
        (execute_migration_job env st job_id).trace
          = [Write.wstatus "running", Write.wprogress 0, Write.wlog startMsg,
             Write.wlog vSrcMsg, Write.wprogress 10, Write.wlog vDestMsg,
             Write.wprogress 20] ++ tw ++ [Write.wlog pm, Write.wprogress 30]
            ++ pipelineTrace ++ [Write.wlog doneMsg, Write.wstatus "completed"]) := by
  rcases hj : getJob st job_id with _ | job0
  · left
    unfold execute_migration_job
    rw [hj]
    exact ⟨rfl, rfl⟩
  · unfold execute_migration_job
    rw [hj]
    dsimp only []
    rcases runLoaded_trace env st job_id job0 with
      ⟨e, h1, h2⟩ | ⟨e, h1, h2⟩ | ⟨e, h1, h2⟩ | ⟨h1, h2⟩ | ⟨tw, pm, htw, htr, v, hres⟩
    · rw [h2]
      dsimp only []
      right; left
      rcases outerGuard_trace_cases (runLoaded env st job_id job0).1 job_id
          (runLoaded env st job_id job0).2.1 e with hg | hg
      · exact ⟨[], Or.inl rfl, Or.inl (by rw [hg, h1]; simp)⟩
      · exact ⟨[Write.wstatus "failed",
          Write.wlog ("Failed: " ++ e.kind ++ ": " ++ e.detail)], Or.inr ⟨_, rfl⟩,
          Or.inl (by rw [hg, h1])⟩
    · rw [h2]
      dsimp only []
      right; left
      rcases outerGuard_trace_cases (runLoaded env st job_id job0).1 job_id
          (runLoaded env st job_id job0).2.1 e with hg | hg
      · exact ⟨[], Or.inl rfl, Or.inr (Or.inl (by rw [hg, h1]; simp))⟩
      · exact ⟨[Write.wstatus "failed",
          Write.wlog ("Failed: " ++ e.kind ++ ": " ++ e.detail)], Or.inr ⟨_, rfl⟩,
          Or.inr (Or.inl (by rw [hg, h1]))⟩
    · rw [h2]
      dsimp only []
      right; left
      rcases outerGuard_trace_cases (runLoaded env st job_id job0).1 job_id
          (runLoaded env st job_id job0).2.1 e with hg | hg
      · exact ⟨[], Or.inl rfl, Or.inr (Or.inr (Or.inl (by rw [hg, h1]; simp)))⟩
      · exact ⟨[Write.wstatus "failed",
          Write.wlog ("Failed: " ++ e.kind ++ ": " ++ e.detail)], Or.inr ⟨_, rfl⟩,
          Or.inr (Or.inr (Or.inl (by rw [hg, h1])))⟩
    · rw [h2]
      dsimp only []
      right; left
      rcases outerGuard_trace_cases (runLoaded env st job_id job0).1 job_id
          (runLoaded env st job_id job0).2.1 noNodesErr with hg | hg
      · exact ⟨[], Or.inl rfl, Or.inr (Or.inr (Or.inr (by rw [hg, h1]; simp)))⟩
      · exact ⟨[Write.wstatus "failed",
          Write.wlog ("Failed: " ++ noNodesErr.kind ++ ": " ++ noNodesErr.detail)],
          Or.inr ⟨_, rfl⟩, Or.inr (Or.inr (Or.inr (by rw [hg, h1])))⟩
    · rw [hres]
      dsimp only []
      right; right
      exact ⟨tw, pm, htw, htr⟩

theorem progressWrites_map_wprogress (l : List Nat) :
    progressWrites (l.map Write.wprogress) = l := by
  induction l with
  | nil => rfl
  | cons a t ih => simp [progressWrites, ih]

theorem climb_le (f : Nat) : ∀ (p t : Nat), ∀ v ∈ climb f p t, v ≤ t := by
  induction f with
  | zero =>
    intro p t v hv
    rw [show climb 0 p t = [] from by rw [climb]] at hv
    simp at hv
  | succ n ih =>
    intro p t v hv
    rw [show climb (n + 1) p t = if p < t then min (p + 5) t :: climb n (min (p + 5) t) t else []
        from by rw [climb]] at hv
    split at hv
    · rcases List.mem_cons.mp hv with rfl | hv2
      · exact Nat.min_le_right _ _
      · exact ih _ _ _ hv2
    · simp at hv

theorem pump_clamped (st : Store) (job : Job) (t : Nat) :
    ∀ v ∈ progressWrites (pump st job t).2.2, v ≤ t := by
  intro v hv
  have hp : (pump st job t).2 = pumpPure (t - job.progress) job t := by
    rw [pump]; exact pumpFuel_pure _ _ _ _
  rw [show (pump st job t).2.2 = ((pump st job t).2).2 from rfl, hp, pumpPure_trace,
    progressWrites_map_wprogress] at hv
  exact climb_le _ _ _ _ hv

theorem outerGuard_found (st : Store) (i : Nat) (tr : List Write) (e : Exc) (j0 : Job)
    (hj0 : getJob st i = some j0) (hid : j0.id = i) :
    getJob (outerGuard st i tr e).store i = some { j0 with status := "failed" } ∧
    ((outerGuard st i tr e).store.logs.map JobLog.message).getLast?
      = some ("Failed: " ++ e.kind ++ ": " ++ e.detail) ∧
    (outerGuard st i tr e).trace
      = tr ++ [Write.wstatus "failed",
          Write.wlog ("Failed: " ++ e.kind ++ ": " ++ e.detail)] := by
  unfold outerGuard
  rw [hj0]
  dsimp only []
  refine ⟨?_, ?_, rfl⟩
  · rw [getJob_appendLog, getJob_putJob]
    simp [hid]
  · simp

theorem planFinish_getJob (st1 : Store) (job1 : Job) (i : Nat) (vm : VirtualMachine)
    (tn : String) (tw : List Write) (hid : job1.id = i) :
    getJob (planFinish st1 job1 i vm tn tw).1 i
      = some { job1 with status := "completed", progress := 100 } := by
  unfold planFinish
  dsimp only []
  have hr : (runPhases phases (putJob (appendLog st1 i (planMsg vm tn))
      { job1 with progress := 30 }) i { job1 with progress := 30 }).2
      = ({ job1 with progress := 100 }, pipelineTrace) := by
    rw [runPhases_pure, runPhasesPure_spec _ (by simp)]
  rw [show (runPhases phases (putJob (appendLog st1 i (planMsg vm tn))
      { job1 with progress := 30 }) i { job1 with progress := 30 }).2.1
      = ((runPhases phases (putJob (appendLog st1 i (planMsg vm tn))
      { job1 with progress := 30 }) i { job1 with progress := 30 }).2).1 from rfl, hr]
  dsimp only []
  rw [getJob_putJob]
  simp [hid]

theorem execute_src_fail (env : Env) (st : Store) (job_id : Nat) (job0 : Job)
    (sp dp : Provider) (vmx : VirtualMachine) (spid dpid vmid : Nat) (d : String)
    (hj : getJob st job_id = some job0) (hid : job0.id = job_id)
    (hsp : job0.source_provider_id = some spid)
    (hdp : job0.destination_provider_id = some dpid)
    (hvm : job0.source_vm_id = some vmid)
    (hspv : st.providers spid = some sp) (hdpv : st.providers dpid = some dp)
    (hvmv : st.vms vmid = some vmx)
    (hsrc : sp.type = ProviderType.vcenter) (hdst : dp.type = ProviderType.proxmox)
    (henv : ∀ a b c v, env.fetch_inventory a b c v
      = Except.error { kind := "VCenterError", detail := d }) :
    (execute_migration_job env st job_id).store
      = appendLog (putJob (appendLog (appendLog (putJob st
          { job0 with status := "running", progress := 0 }) job_id startMsg) job_id vSrcMsg)
          { job0 with status := "failed", progress := 0 }) job_id
          "Failed: VCenterError: Unable to connect to vCenter with stored credentials." ∧
    (execute_migration_job env st job_id).trace
      = [Write.wstatus "running", Write.wprogress 0, Write.wlog startMsg, Write.wlog vSrcMsg,
         Write.wstatus "failed",
         Write.wlog "Failed: VCenterError: Unable to connect to vCenter with stored credentials."] ∧
    (execute_migration_job env st job_id).result = RunResult.raised vcConnErr := by
  have hbody : runLoaded env st job_id job0
      = (appendLog (appendLog (putJob st { job0 with status := "running", progress := 0 })
            job_id startMsg) job_id vSrcMsg,
         [Write.wstatus "running", Write.wprogress 0, Write.wlog startMsg, Write.wlog vSrcMsg],
         Except.error vcConnErr) := by
    unfold runLoaded
    dsimp only []
    simp only [hsp, hdp, hvm, load_provider, load_vm, providers_appendLog, providers_putJob,
      vms_appendLog, vms_putJob, hspv, hdpv, hvmv]
    rw [if_neg (by simp [hsrc]), if_neg (by simp [hdst])]
    unfold stageSrc
    dsimp only []
    rw [henv]
    dsimp only []
    rw [if_pos rfl, if_pos (by simp)]
    simp
  have hST : getJob (appendLog (appendLog (putJob st
        { job0 with status := "running", progress := 0 }) job_id startMsg) job_id vSrcMsg) job_id
      = some { job0 with status := "running", progress := 0 } := by
    rw [getJob_appendLog, getJob_appendLog, getJob_putJob]
    simp [hid]
  unfold execute_migration_job
  rw [hj]
  dsimp only []
  rw [hbody]
  dsimp only []
  unfold outerGuard
  rw [hST]
  dsimp only []
  exact ⟨rfl, rfl, rfl⟩

end HelperLemmas

section StreamLemmas

/-- One poll of the stream on a terminal job emits all log rows (ids
are positive, last_id starts at 0), the progress event and the done
event, and stops. -/
theorem pollOnce_terminal (st : Store) (job_id : Nat) (job : Job)
    (hj : getJob st job_id = some job)
    (hterm : job.status = "completed" ∨ job.status = "failed")
    (hpos : ∀ l ∈ st.logs, 0 < l.id) :
    pollOnce st job_id 0
      = ((jobLogs st job_id).map (fun l => Event.data l.message)
          ++ [Event.progress job.progress, Event.done job.status],
         (jobLogs st job_id).foldl (fun _ l => l.id) 0, true) := by
  have hfilter : (jobLogs st job_id).filter (fun l => decide (0 < l.id)) = jobLogs st job_id := by
    apply List.filter_eq_self.mpr
    intro l hl
    simpa using hpos l (List.mem_filter.mp hl).1
  unfold pollOnce
  rw [hj]
  dsimp only []
  rw [hfilter]
  rcases hterm with h | h <;> simp [h]

end StreamLemmas

section Claims

/-- C1 (amended): within a single run of execute_migration_job, once a
terminal status (completed or failed) has been written, no later write
of that run changes the status to a different value or writes any
progress value; however, invoking execute_migration_job on a job whose
status is already terminal is not a no-op: it starts a fresh run whose
first two writes set status to running and progress to 0 (see the
counterexample for the original claim). -/
theorem C1_terminal_sticky_within_run (env : Env) (st : Store) (job_id : Nat) :
    stickyTrace (execute_migration_job env st job_id).trace = true ∧
    (∀ job0, getJob st job_id = some job0 →
      (execute_migration_job env st job_id).trace.take 2
        = [Write.wstatus "running", Write.wprogress 0]) := by
  rcases execute_trace_cases env st job_id with
    ⟨h, hj⟩ | ⟨gt, hgt, h | h | h | h⟩ | ⟨tw, pm, htw, h⟩
  · exact ⟨by rw [h]; rfl, fun j0 hc => absurd hc (by rw [hj]; simp)⟩
  · exact ⟨by rcases hgt with rfl | ⟨m, rfl⟩ <;> (rw [h]; simp),
      fun j0 hc => by rw [h]; rfl⟩
  · exact ⟨by rcases hgt with rfl | ⟨m, rfl⟩ <;> (rw [h]; simp),
      fun j0 hc => by rw [h]; rfl⟩
  · exact ⟨by rcases hgt with rfl | ⟨m, rfl⟩ <;> (rw [h]; simp),
      fun j0 hc => by rw [h]; rfl⟩
  · exact ⟨by rcases hgt with rfl | ⟨m, rfl⟩ <;> (rw [h]; simp),
      fun j0 hc => by rw [h]; rfl⟩
  · exact ⟨by rcases htw with rfl | ⟨t, rfl⟩ <;> (rw [h]; simp [stickyTrace_pipeline_append]),
      fun j0 hc => by rw [h]; rfl⟩

/-- C1 witness: the amended property evaluated on the reference
scenario run. -/
theorem C1_terminal_sticky_witness :
    stickyTrace (execute_migration_job happyEnv scenarioStore 1).trace = true ∧
    (execute_migration_job happyEnv scenarioStore 1).trace.take 2
      = [Write.wstatus "running", Write.wprogress 0] :=
  ⟨(C1_terminal_sticky_within_run happyEnv scenarioStore 1).1,
   (C1_terminal_sticky_within_run happyEnv scenarioStore 1).2 scenarioJob rfl⟩

/-- C2: in every run the sequence of values written to progress is
non-decreasing, every written value lies in [0, 100] (values are
integers by construction: progress is a Nat column), and the progress
loop of each phase clamps every written value to that phase's
target. -/
theorem C2_progress_monotone_bounded_clamped (env : Env) (st : Store) (job_id : Nat) :
    List.Chain' (fun a b => a ≤ b)
      (progressWrites (execute_migration_job env st job_id).trace) ∧
    (∀ v ∈ progressWrites (execute_migration_job env st job_id).trace, v ≤ 100) ∧
    (∀ stx jobx t, ∀ v ∈ progressWrites (pump stx jobx t).2.2, v ≤ t) := by
  have hpair : List.Chain' (fun a b => a ≤ b)
      (progressWrites (execute_migration_job env st job_id).trace) ∧
      (∀ v ∈ progressWrites (execute_migration_job env st job_id).trace, v ≤ 100) := by
    rcases execute_trace_cases env st job_id with
      ⟨h, hj⟩ | ⟨gt, hgt, h | h | h | h⟩ | ⟨tw, pm, htw, h⟩
    · rw [h]; exact ⟨by decide, by decide⟩
    · rcases hgt with rfl | ⟨m, rfl⟩ <;> rw [h] <;> refine ⟨?_, ?_⟩ <;>
        simp [progressWrites_append, progressWrites]
    · rcases hgt with rfl | ⟨m, rfl⟩ <;> rw [h] <;> refine ⟨?_, ?_⟩ <;>
        simp [progressWrites_append, progressWrites]
    · rcases hgt with rfl | ⟨m, rfl⟩ <;> rw [h] <;> refine ⟨?_, ?_⟩ <;>
        simp [progressWrites_append, progressWrites]
    · rcases hgt with rfl | ⟨m, rfl⟩ <;> rw [h] <;> refine ⟨?_, ?_⟩ <;>
        simp [progressWrites_append, progressWrites]
    · rcases htw with rfl | ⟨t, rfl⟩ <;> rw [h] <;> refine ⟨?_, ?_⟩ <;>
        simp [progressWrites_append, progressWrites, progressWrites_pipeline]
  exact ⟨hpair.1, hpair.2, fun stx jobx t => pump_clamped stx jobx t⟩

/-- C3: whenever any step after the job row was successfully loaded
raises an uncaught error (the body returns error e), the outer guard
re-raises that same error as the caller-visible result, forces the
job's status to failed (never leaving it in running) and appends a log
entry "Failed: <error kind>: <error detail>" as the last log line. -/
theorem C3_outer_guard_failure_semantics (env : Env) (st : Store) (job_id : Nat)
    (job0 : Job) (e : Exc)
    (hj : getJob st job_id = some job0) (hid : job0.id = job_id)
    (herr : (runLoaded env st job_id job0).2.2 = Except.error e) :
    (execute_migration_job env st job_id).result = RunResult.raised e ∧
    (∃ j, getJob (execute_migration_job env st job_id).store job_id = some j ∧
      j.status = "failed") ∧
    ((execute_migration_job env st job_id).store.logs.map JobLog.message).getLast?
      = some ("Failed: " ++ e.kind ++ ": " ++ e.detail) := by
  have hkey : keyedAt (runLoaded env st job_id job0).1 job_id :=
    keyedAt_runLoaded ⟨job0, hj, hid⟩ env job_id job0
  unfold execute_migration_job
  rw [hj]
  dsimp only []
  rw [herr]
  dsimp only []
  obtain ⟨A, B, C⟩ := outerGuard_spec (runLoaded env st job_id job0).1 job_id
    (runLoaded env st job_id job0).2.1 e hkey
  exact ⟨outerGuard_result _ _ _ _, A, B⟩

/-- C4: when the source connectivity call fetch_inventory raises
VCenterError (with any detail), the run ends raised with the fixed
VCenterError, the job is left failed with progress 0 (strictly below
the phase target 10), and the last log entry names the connector
error. -/
theorem C4_source_connectivity_failure (env : Env) (st : Store) (job_id : Nat) (job0 : Job)
    (sp dp : Provider) (vmx : VirtualMachine) (spid dpid vmid : Nat) (d : String)
    (hj : getJob st job_id = some job0) (hid : job0.id = job_id)
    (hsp : job0.source_provider_id = some spid)
    (hdp : job0.destination_provider_id = some dpid)
    (hvm : job0.source_vm_id = some vmid)
    (hspv : st.providers spid = some sp) (hdpv : st.providers dpid = some dp)
    (hvmv : st.vms vmid = some vmx)
    (hsrc : sp.type = ProviderType.vcenter) (hdst : dp.type = ProviderType.proxmox)
    (henv : ∀ a b c v, env.fetch_inventory a b c v
      = Except.error { kind := "VCenterError", detail := d }) :
    (execute_migration_job env st job_id).result = RunResult.raised vcConnErr ∧
    (∃ j, getJob (execute_migration_job env st job_id).store job_id = some j ∧
      j.status = "failed" ∧ j.progress = 0) ∧
    ((execute_migration_job env st job_id).store.logs.map JobLog.message).getLast?
      = some "Failed: VCenterError: Unable to connect to vCenter with stored credentials." := by
  have hbody : runLoaded env st job_id job0
      = (appendLog (appendLog (putJob st { job0 with status := "running", progress := 0 })
            job_id startMsg) job_id vSrcMsg,
         [Write.wstatus "running", Write.wprogress 0, Write.wlog startMsg, Write.wlog vSrcMsg],
         Except.error vcConnErr) := by
    unfold runLoaded
    dsimp only []
    simp only [hsp, hdp, hvm, load_provider, load_vm, providers_appendLog, providers_putJob,
      vms_appendLog, vms_putJob, hspv, hdpv, hvmv]
    rw [if_neg (by simp [hsrc]), if_neg (by simp [hdst])]
    unfold stageSrc
    dsimp only []
    rw [henv]
    dsimp only []
    rw [if_pos rfl, if_pos (by simp)]
    simp
  have hST : getJob (appendLog (appendLog (putJob st
        { job0 with status := "running", progress := 0 }) job_id startMsg) job_id vSrcMsg) job_id
      = some { job0 with status := "running", progress := 0 } := by
    rw [getJob_appendLog, getJob_appendLog, getJob_putJob]
    simp [hid]
  unfold execute_migration_job
  rw [hj]
  dsimp only []
  rw [hbody]
  dsimp only []
  obtain ⟨A, B, C⟩ := outerGuard_found _ job_id _ vcConnErr _ hST (by simp [hid])
  refine ⟨outerGuard_result _ _ _ _, ⟨{ job0 with status := "failed", progress := 0 }, ?_, rfl, rfl⟩, ?_⟩
  · rw [A]
  · rw [B]; rfl

/-- C4 witness: the property at a concrete store and failing source
connector. -/
theorem C4_source_connectivity_witness :
    (execute_migration_job (srcFailEnv "timeout") scenarioStore 1).result
      = RunResult.raised vcConnErr ∧
    (∃ j, getJob (execute_migration_job (srcFailEnv "timeout") scenarioStore 1).store 1
      = some j ∧ j.status = "failed" ∧ j.progress = 0) ∧
    ((execute_migration_job (srcFailEnv "timeout") scenarioStore 1).store.logs.map
        JobLog.message).getLast?
      = some "Failed: VCenterError: Unable to connect to vCenter with stored credentials." :=
  C4_source_connectivity_failure (srcFailEnv "timeout") scenarioStore 1 scenarioJob
    vcProv pxProv vmDb01 1 2 1 "timeout" rfl rfl rfl rfl rfl rfl rfl rfl rfl rfl
    (fun _ _ _ _ => rfl)

/-- C6: a job that passes both connectivity checks and has a truthy
(non-empty) pre-specified target_node never uses the first-candidate
fallback: no write to target_node occurs during the run, the job's
target_node is unchanged, and the success result's target equals the
pre-specified value, whatever candidate list the destination connector
returned. -/
theorem C6_explicit_target_no_fallback (env : Env) (st : Store) (job_id : Nat) (job0 : Job)
    (sp dp : Provider) (vmx : VirtualMachine) (spid dpid vmid : Nat) (inv : VCenterInventory)
    (nodes : List ProxmoxNodeInfo) (t : String)
    (hj : getJob st job_id = some job0) (hid : job0.id = job_id)
    (hsp : job0.source_provider_id = some spid)
    (hdp : job0.destination_provider_id = some dpid)
    (hvm : job0.source_vm_id = some vmid)
    (hspv : st.providers spid = some sp) (hdpv : st.providers dpid = some dp)
    (hvmv : st.vms vmid = some vmx)
    (hsrc : sp.type = ProviderType.vcenter) (hdst : dp.type = ProviderType.proxmox)
    (henv1 : ∀ a b c v, env.fetch_inventory a b c v = Except.ok inv)
    (henv2 : ∀ a b c v, env.fetch_nodes a b c v = Except.ok nodes)
    (htn : job0.target_node = some t) (ht : t.isEmpty = false) :
    (execute_migration_job env st job_id).result = RunResult.ok job0.id job0.vm_name t ∧
    (∀ s, Write.wtarget s ∉ (execute_migration_job env st job_id).trace) ∧
    (∃ j, getJob (execute_migration_job env st job_id).store job_id = some j ∧
      j.status = "completed" ∧ j.progress = 100 ∧ j.target_node = some t) := by
  have hplan : stagePlan (putJob (appendLog (putJob (appendLog (appendLog (putJob st
        { job0 with status := "running", progress := 0 }) job_id startMsg) job_id vSrcMsg)
        { job0 with status := "running", progress := 10 }) job_id vDestMsg)
        { job0 with status := "running", progress := 20 })
        { job0 with status := "running", progress := 20 } job_id vmx nodes
      = planFinish (putJob (appendLog (putJob (appendLog (appendLog (putJob st
        { job0 with status := "running", progress := 0 }) job_id startMsg) job_id vSrcMsg)
        { job0 with status := "running", progress := 10 }) job_id vDestMsg)
        { job0 with status := "running", progress := 20 })
        { job0 with status := "running", progress := 20 } job_id vmx t [] := by
    unfold stagePlan
    dsimp only []
    rw [if_neg (by simp [pyOr, truthy, htn, ht])]
    unfold planProceed
    dsimp only []
    rw [if_neg (by simp [truthy, htn, ht])]
    have hres : ∀ fb, (pyOr job0.target_node fb).getD "" = t := by
      intro fb
      simp [pyOr, truthy, htn, ht]
    rw [hres]
  have hbody2 : runLoaded env st job_id job0
      = ((stageSrc env (appendLog (putJob st { job0 with status := "running", progress := 0 })
            job_id startMsg) { job0 with status := "running", progress := 0 } job_id sp dp vmx).1,
         [Write.wstatus "running", Write.wprogress 0, Write.wlog startMsg]
           ++ (stageSrc env (appendLog (putJob st { job0 with status := "running", progress := 0 })
            job_id startMsg) { job0 with status := "running", progress := 0 } job_id sp dp vmx).2.1,
         (stageSrc env (appendLog (putJob st { job0 with status := "running", progress := 0 })
            job_id startMsg) { job0 with status := "running", progress := 0 } job_id sp dp vmx).2.2) := by
    unfold runLoaded
    dsimp only []
    simp only [hsp, hdp, hvm, load_provider, load_vm, providers_appendLog, providers_putJob,
      vms_appendLog, vms_putJob, hspv, hdpv, hvmv]
    rw [if_neg (by simp [hsrc]), if_neg (by simp [hdst])]
  have hS : stageSrc env (appendLog (putJob st { job0 with status := "running", progress := 0 })
        job_id startMsg) { job0 with status := "running", progress := 0 } job_id sp dp vmx
      = ((stageDest env (putJob (appendLog (appendLog (putJob st
            { job0 with status := "running", progress := 0 }) job_id startMsg) job_id vSrcMsg)
            { job0 with status := "running", progress := 10 })
            { job0 with status := "running", progress := 10 } job_id dp vmx).1,
         [Write.wlog vSrcMsg, Write.wprogress 10]
           ++ (stageDest env (putJob (appendLog (appendLog (putJob st
            { job0 with status := "running", progress := 0 }) job_id startMsg) job_id vSrcMsg)
            { job0 with status := "running", progress := 10 })
            { job0 with status := "running", progress := 10 } job_id dp vmx).2.1,
         (stageDest env (putJob (appendLog (appendLog (putJob st
            { job0 with status := "running", progress := 0 }) job_id startMsg) job_id vSrcMsg)
            { job0 with status := "running", progress := 10 })
            { job0 with status := "running", progress := 10 } job_id dp vmx).2.2) := by
    unfold stageSrc
    dsimp only []
    rw [henv1]
    dsimp only []
    rw [if_neg (by decide)]
    simp
  have hD : stageDest env (putJob (appendLog (appendLog (putJob st
        { job0 with status := "running", progress := 0 }) job_id startMsg) job_id vSrcMsg)
        { job0 with status := "running", progress := 10 })
        { job0 with status := "running", progress := 10 } job_id dp vmx
      = ((stagePlan (putJob (appendLog (putJob (appendLog (appendLog (putJob st
            { job0 with status := "running", progress := 0 }) job_id startMsg) job_id vSrcMsg)
            { job0 with status := "running", progress := 10 }) job_id vDestMsg)
            { job0 with status := "running", progress := 20 })
            { job0 with status := "running", progress := 20 } job_id vmx nodes).1,
         [Write.wlog vDestMsg, Write.wprogress 20]
           ++ (stagePlan (putJob (appendLog (putJob (appendLog (appendLog (putJob st
            { job0 with status := "running", progress := 0 }) job_id startMsg) job_id vSrcMsg)
            { job0 with status := "running", progress := 10 }) job_id vDestMsg)
            { job0 with status := "running", progress := 20 })
            { job0 with status := "running", progress := 20 } job_id vmx nodes).2.1,
         (stagePlan (putJob (appendLog (putJob (appendLog (appendLog (putJob st
            { job0 with status := "running", progress := 0 }) job_id startMsg) job_id vSrcMsg)
            { job0 with status := "running", progress := 10 }) job_id vDestMsg)
            { job0 with status := "running", progress := 20 })
            { job0 with status := "running", progress := 20 } job_id vmx nodes).2.2) := by
    unfold stageDest
    dsimp only []
    rw [henv2]
    dsimp only []
    rw [if_neg (by decide)]
    simp
  obtain ⟨hPT, hPR⟩ := planFinish_trace (putJob (appendLog (putJob (appendLog (appendLog (putJob st
      { job0 with status := "running", progress := 0 }) job_id startMsg) job_id vSrcMsg)
      { job0 with status := "running", progress := 10 }) job_id vDestMsg)
      { job0 with status := "running", progress := 20 })
      { job0 with status := "running", progress := 20 } job_id vmx t []
  have hPG := planFinish_getJob (putJob (appendLog (putJob (appendLog (appendLog (putJob st
      { job0 with status := "running", progress := 0 }) job_id startMsg) job_id vSrcMsg)
      { job0 with status := "running", progress := 10 }) job_id vDestMsg)
      { job0 with status := "running", progress := 20 })
      { job0 with status := "running", progress := 20 } job_id vmx t [] (by simp [hid])
  unfold execute_migration_job
  rw [hj]
  dsimp only []
  rw [hbody2]
  dsimp only []
  rw [hS]
  dsimp only []
  rw [hD]
  dsimp only []
  rw [hplan, hPR]
  dsimp only []
  refine ⟨rfl, ?_, ?_⟩
  · intro s
    rw [hPT]
    simp [pipelineTrace]
  · refine ⟨{ job0 with status := "completed", progress := 100 }, ?_, rfl, rfl, by dsimp only []; exact htn⟩
    rw [hPG]

/-- C6 witness: explicit target node-x survives even though the
destination connector offers node-a. -/
theorem C6_explicit_target_witness :
    (execute_migration_job happyEnv explicitTargetStore 1).result
      = RunResult.ok 1 "db-01" "node-x" ∧
    (∀ s, Write.wtarget s ∉ (execute_migration_job happyEnv explicitTargetStore 1).trace) ∧
    (∃ j, getJob (execute_migration_job happyEnv explicitTargetStore 1).store 1 = some j ∧
      j.status = "completed" ∧ j.progress = 100 ∧ j.target_node = some "node-x") :=
  C6_explicit_target_no_fallback happyEnv explicitTargetStore 1 explicitTargetJob
    vcProv pxProv vmDb01 1 2 1 { datacenters := [], hosts := [], virtual_machines := [] }
    [{ name := "node-a", status := some "online" }] "node-x"
    rfl rfl rfl rfl rfl rfl rfl rfl rfl rfl (fun _ _ _ _ => rfl) (fun _ _ _ _ => rfl) rfl rfl

/-- C7: a job with no pre-specified target_node whose destination
connector succeeds but returns an empty candidate list ends failed
with progress exactly 20 (the progress writes of the run are 0, 10, 20
and 30 is never reached) and a final log entry about no available
destination target. -/
theorem C7_no_candidates_fails_at_20 (env : Env) (st : Store) (job_id : Nat) (job0 : Job)
    (sp dp : Provider) (vmx : VirtualMachine) (spid dpid vmid : Nat) (inv : VCenterInventory)
    (hj : getJob st job_id = some job0) (hid : job0.id = job_id)
    (hsp : job0.source_provider_id = some spid)
    (hdp : job0.destination_provider_id = some dpid)
    (hvm : job0.source_vm_id = some vmid)
    (hspv : st.providers spid = some sp) (hdpv : st.providers dpid = some dp)
    (hvmv : st.vms vmid = some vmx)
    (hsrc : sp.type = ProviderType.vcenter) (hdst : dp.type = ProviderType.proxmox)
    (henv1 : ∀ a b c v, env.fetch_inventory a b c v = Except.ok inv)
    (henv2 : ∀ a b c v, env.fetch_nodes a b c v = Except.ok [])
    (htn : job0.target_node = none) :
    (execute_migration_job env st job_id).result = RunResult.raised noNodesErr ∧
    (∃ j, getJob (execute_migration_job env st job_id).store job_id = some j ∧
      j.status = "failed" ∧ j.progress = 20) ∧
    ((execute_migration_job env st job_id).store.logs.map JobLog.message).getLast?
      = some ("Failed: ValueError: "
          ++ "Destination node not specified and Proxmox cluster returned no nodes.") ∧
    progressWrites (execute_migration_job env st job_id).trace = [0, 10, 20] := by
  have hbody : runLoaded env st job_id job0
      = (putJob (appendLog (putJob (appendLog (appendLog (putJob st
            { job0 with status := "running", progress := 0 }) job_id startMsg) job_id vSrcMsg)
            { job0 with status := "running", progress := 10 }) job_id vDestMsg)
            { job0 with status := "running", progress := 20 },
         [Write.wstatus "running", Write.wprogress 0, Write.wlog startMsg, Write.wlog vSrcMsg,
          Write.wprogress 10, Write.wlog vDestMsg, Write.wprogress 20],
         Except.error noNodesErr) := by
    unfold runLoaded
    dsimp only []
    simp only [hsp, hdp, hvm, load_provider, load_vm, providers_appendLog, providers_putJob,
      vms_appendLog, vms_putJob, hspv, hdpv, hvmv]
    rw [if_neg (by simp [hsrc]), if_neg (by simp [hdst])]
    unfold stageSrc
    dsimp only []
    rw [henv1]
    dsimp only []
    rw [if_neg (by decide)]
    unfold stageDest
    dsimp only []
    rw [henv2]
    dsimp only []
    rw [if_neg (by decide)]
    unfold stagePlan
    dsimp only []
    rw [if_pos (by simp [pyOr, truthy, htn])]
    simp
  have hST : getJob (putJob (appendLog (putJob (appendLog (appendLog (putJob st
        { job0 with status := "running", progress := 0 }) job_id startMsg) job_id vSrcMsg)
        { job0 with status := "running", progress := 10 }) job_id vDestMsg)
        { job0 with status := "running", progress := 20 }) job_id
      = some { job0 with status := "running", progress := 20 } := by
    rw [getJob_putJob]
    simp [hid]
  unfold execute_migration_job
  rw [hj]
  dsimp only []
  rw [hbody]
  dsimp only []
  obtain ⟨A, B, C⟩ := outerGuard_found _ job_id _ noNodesErr _ hST (by simp [hid])
  refine ⟨outerGuard_result _ _ _ _,
    ⟨{ job0 with status := "failed", progress := 20 }, ?_, rfl, rfl⟩, ?_, ?_⟩
  · rw [A]
  · rw [B]; rfl
  · rw [C]; rfl

/-- C7 witness: the property at a concrete store whose destination
returns no nodes. -/
theorem C7_no_candidates_witness :
    (execute_migration_job noNodesEnv scenarioStore 1).result = RunResult.raised noNodesErr ∧
    (∃ j, getJob (execute_migration_job noNodesEnv scenarioStore 1).store 1 = some j ∧
      j.status = "failed" ∧ j.progress = 20) ∧
    ((execute_migration_job noNodesEnv scenarioStore 1).store.logs.map JobLog.message).getLast?
      = some ("Failed: ValueError: "
          ++ "Destination node not specified and Proxmox cluster returned no nodes.") ∧
    progressWrites (execute_migration_job noNodesEnv scenarioStore 1).trace = [0, 10, 20] :=
  C7_no_candidates_fails_at_20 noNodesEnv scenarioStore 1 scenarioJob vcProv pxProv vmDb01
    1 2 1 { datacenters := [], hosts := [], virtual_machines := [] }
    rfl rfl rfl rfl rfl rfl rfl rfl rfl rfl (fun _ _ _ _ => rfl) (fun _ _ _ _ => rfl) rfl

/-- C8: subscribing to the progress stream of a job already in a
terminal state yields every historical log entry exactly once, in
store (id) order, then one progress event carrying the current
progress, then a single done event carrying the final status, and the
event sequence ends (the result is independent of the remaining fuel);
a fresh subscription re-running this model replays the same history. -/
theorem C8_terminal_stream_replay (st : Store) (job_id : Nat) (job : Job)
    (hj : getJob st job_id = some job)
    (hterm : job.status = "completed" ∨ job.status = "failed")
    (hpos : ∀ l ∈ st.logs, 0 < l.id)
    (hsorted : List.Chain' (fun a b => a.id < b.id) st.logs) :
    ∀ fuel, stream (fuel + 1) st job_id 0
      = (jobLogs st job_id).map (fun l => Event.data l.message)
        ++ [Event.progress job.progress, Event.done job.status] := by
  intro fuel
  show stream (fuel + 1) st job_id 0 = _
  rw [show (fuel + 1) = Nat.succ fuel from rfl]
  unfold stream
  rw [pollOnce_terminal st job_id job hj hterm hpos]
  rfl

/-- C8 witness: streaming a completed job with two historical log rows. -/
theorem C8_terminal_stream_witness :
    stream 1 streamStore 1 0
      = [Event.data "Starting migration workflow.",
         Event.data "Migration workflow completed (manual data transfer steps may still be required).",
         Event.progress 100, Event.done "completed"] :=
  (C8_terminal_stream_replay streamStore 1 completedJob rfl (Or.inl rfl)
    (by decide) (by simp [streamStore, mkStore]) 0).trans (by decide)

/-- C9 (amended): the engine enforces no per-id mutual exclusion:
invoking execute_migration_job for a job id whose row exists — in
particular one whose status is already running, i.e. an in-flight
execution — is neither rejected nor coalesced; it always starts a
fresh run whose first two writes set status to running and progress
to 0. -/
theorem C9_no_mutual_exclusion (env : Env) (st : Store) (job_id : Nat) (job0 : Job)
    (hj : getJob st job_id = some job0) (hrun : job0.status = "running") :
    (execute_migration_job env st job_id).trace.take 2
      = [Write.wstatus "running", Write.wprogress 0] := by
  rcases execute_trace_cases env st job_id with
    ⟨h, hn⟩ | ⟨gt, hgt, h | h | h | h⟩ | ⟨tw, pm, htw, h⟩
  · rw [hn] at hj; simp at hj
  · rw [h]; rfl
  · rw [h]; rfl
  · rw [h]; rfl
  · rw [h]; rfl
  · rw [h]; rfl

/-- C9 witness: the amended property on a store whose job is mid-run. -/
theorem C9_no_mutual_exclusion_witness :
    (execute_migration_job happyEnv runningStore 1).trace.take 2
      = [Write.wstatus "running", Write.wprogress 0] :=
  C9_no_mutual_exclusion happyEnv runningStore 1 runningJob rfl rfl

/-- C10: two runs that differ only in the detail message of the
VCenterError raised by the source connector leave identical log
tables, and the failure entry is the fixed string "Failed:
VCenterError: Unable to connect to vCenter with stored credentials." —
the connector's own detail never reaches the job log. -/
theorem C10_connector_detail_not_logged (env1 env2 : Env) (st : Store) (job_id : Nat)
    (job0 : Job) (sp dp : Provider) (vmx : VirtualMachine) (spid dpid vmid : Nat)
    (d1 d2 : String)
    (hj : getJob st job_id = some job0) (hid : job0.id = job_id)
    (hsp : job0.source_provider_id = some spid)
    (hdp : job0.destination_provider_id = some dpid)
    (hvm : job0.source_vm_id = some vmid)
    (hspv : st.providers spid = some sp) (hdpv : st.providers dpid = some dp)
    (hvmv : st.vms vmid = some vmx)
    (hsrc : sp.type = ProviderType.vcenter) (hdst : dp.type = ProviderType.proxmox)
    (henv1 : ∀ a b c v, env1.fetch_inventory a b c v
      = Except.error { kind := "VCenterError", detail := d1 })
    (henv2 : ∀ a b c v, env2.fetch_inventory a b c v
      = Except.error { kind := "VCenterError", detail := d2 }) :
    (execute_migration_job env1 st job_id).store.logs
      = (execute_migration_job env2 st job_id).store.logs ∧
    ((execute_migration_job env1 st job_id).store.logs.map JobLog.message).getLast?
      = some "Failed: VCenterError: Unable to connect to vCenter with stored credentials." := by
  obtain ⟨hs1, ht1, hr1⟩ := execute_src_fail env1 st job_id job0 sp dp vmx spid dpid vmid d1
    hj hid hsp hdp hvm hspv hdpv hvmv hsrc hdst henv1
  obtain ⟨hs2, ht2, hr2⟩ := execute_src_fail env2 st job_id job0 sp dp vmx spid dpid vmid d2
    hj hid hsp hdp hvm hspv hdpv hvmv hsrc hdst henv2
  constructor
  · rw [hs1, hs2]
  · rw [hs1]
    simp

/-- C10 witness: two concrete connector details produce the same log
table and the fixed failure entry. -/
theorem C10_connector_detail_witness :
    (execute_migration_job (srcFailEnv "detail-one") scenarioStore 1).store.logs
      = (execute_migration_job (srcFailEnv "detail-two") scenarioStore 1).store.logs ∧
    ((execute_migration_job (srcFailEnv "detail-one") scenarioStore 1).store.logs.map
        JobLog.message).getLast?
      = some "Failed: VCenterError: Unable to connect to vCenter with stored credentials." :=
  C10_connector_detail_not_logged (srcFailEnv "detail-one") (srcFailEnv "detail-two")
    scenarioStore 1 scenarioJob vcProv pxProv vmDb01 1 2 1 "detail-one" "detail-two"
    rfl rfl rfl rfl rfl rfl rfl rfl rfl rfl (fun _ _ _ _ => rfl) (fun _ _ _ _ => rfl)

end Claims

end SymbolicProofs

section ConcreteEvaluations

/-- C1 counterexample: the claim that execute_migration_job performs no
write to status or progress when the job is already terminal is false:
on a completed job the engine unconditionally writes status running
and progress 0. -/
theorem C1_counterexample_rerun_on_terminal :
    getJob completedStore 1 = some completedJob ∧
    completedJob.status = "completed" ∧
    Write.wstatus "running" ∈ (execute_migration_job happyEnv completedStore 1).trace ∧
    Write.wprogress 0 ∈ (execute_migration_job happyEnv completedStore 1).trace := by
  decide

/-- C2 witness: the bounds evaluated on the reference scenario run and
on one concrete phase loop. -/
theorem C2_progress_witness :
    List.Chain' (fun a b => a ≤ b)
      (progressWrites (execute_migration_job happyEnv scenarioStore 1).trace) ∧
    (100 : Nat) ≤ 100 ∧ (35 : Nat) ≤ 50 :=
  ⟨(C2_progress_monotone_bounded_clamped happyEnv scenarioStore 1).1,
   (C2_progress_monotone_bounded_clamped happyEnv scenarioStore 1).2.1 100 (by decide),
   (C2_progress_monotone_bounded_clamped happyEnv scenarioStore 1).2.2 scenarioStore
     { scenarioJob with progress := 30 } 50 35 (by decide)⟩

/-- C3 witness: a concrete run whose source connector raises. -/
theorem C3_outer_guard_witness :
    (execute_migration_job (srcFailEnv "network unreachable") scenarioStore 1).result
      = RunResult.raised vcConnErr ∧
    (∃ j, getJob (execute_migration_job (srcFailEnv "network unreachable")
        scenarioStore 1).store 1 = some j ∧ j.status = "failed") ∧
    ((execute_migration_job (srcFailEnv "network unreachable")
        scenarioStore 1).store.logs.map JobLog.message).getLast?
      = some ("Failed: " ++ vcConnErr.kind ++ ": " ++ vcConnErr.detail) :=
  C3_outer_guard_failure_semantics (srcFailEnv "network unreachable") scenarioStore 1
    scenarioJob vcConnErr rfl rfl rfl

/-- C5 counterexample: the reference scenario produces ten log entries,
not the five-plus-three the claim states: three setup entries, one
planning entry, five phase entries and one completion entry. -/
theorem C5_counterexample_log_count :
    (jobLogs (execute_migration_job happyEnv scenarioStore 1).store 1).length = 10 ∧
    (jobLogs (execute_migration_job happyEnv scenarioStore 1).store 1).length ≠ 5 + 3 := by
  decide

/-- C5 (amended): the reference scenario (job 1, VM db-01, reachable
vCenter source, Proxmox destination returning [node-a], no explicit
target) ends completed with target_node node-a and progress 100, and
its log contains exactly ten entries: three setup entries, one
planning entry, one entry per pipeline phase and one completion
entry. -/
theorem C5_reference_scenario :
    (execute_migration_job happyEnv scenarioStore 1).result = RunResult.ok 1 "db-01" "node-a" ∧
    getJob (execute_migration_job happyEnv scenarioStore 1).store 1
      = some { scenarioJob with status := "completed", progress := 100, target_node := some "node-a" } ∧
    (jobLogs (execute_migration_job happyEnv scenarioStore 1).store 1).map JobLog.message
      = [startMsg, vSrcMsg, vDestMsg,
         "Prepared migration plan for VM \x27db-01\x27 (source id vm-123) to Proxmox node \x27node-a\x27.",
         "Export VM from vCenter as OVA", "Convert disks to qcow2 using qemu-img",
         "Upload converted disks to Proxmox storage", "Provision Proxmox VM and attach disks",
         "Initiate Proxmox live migration", doneMsg] := by
  decide

/-- C9 counterexample: submitting an execution for a job id whose job
is already running is not rejected or coalesced: the engine performs a
full second run that resets progress and ends completed. -/
theorem C9_counterexample_second_run_proceeds :
    getJob runningStore 1 = some runningJob ∧
    runningJob.status = "running" ∧
    (execute_migration_job happyEnv runningStore 1).trace ≠ [] ∧
    (execute_migration_job happyEnv runningStore 1).result = RunResult.ok 1 "db-01" "node-a" := by
  decide

end ConcreteEvaluations

end VMMigrator
